import Mathlib

/-!
Shallow embedding of the realtime-translator repository
(`src/realtime/events.py`, `src/realtime/client.py`, `src/main.py`).

Python dicts keyed by ints / strings become insertion-ordered association
lists; `datetime.now()` becomes an abstract `Nat` clock value supplied by
the caller; `time.sleep(1)` becomes a counted wait in the output of the handler
(event delivery is sequential: the websocket thread dispatches callbacks
one at a time, so no other handler can run during the sleep); the pairs
printed on translation finalization become `Report` values; log lines and
other prints carry no state and are not modelled.
-/

namespace RT

/-- A translation task, the value stored in `EventHandler.active_tasks`
(`events.py`, `create_task`).  `timestamp` abstracts `datetime.now()`. -/
structure Task where
  source : Option String
  translation : Option String
  status : String
  trigger : String
  timestamp : Nat
  deriving Repr, DecidableEq

/-- Insertion-ordered association list with `Nat` keys, modelling a Python
dict such as `active_tasks`. -/
abbrev NatMap := List (Nat × Task)

/-- Insertion-ordered association list with `String` keys and `Nat` values,
modelling `item_to_task` / `response_to_task`. -/
abbrev StrMap := List (String × Nat)

/-- `d.get(k)` on a dict with int keys. -/
def lookupNat (m : NatMap) (k : Nat) : Option Task :=
  (m.find? (fun p => p.1 = k)).map (fun p => p.2)

/-- `d[k] = v` on a dict with int keys: update in place if present,
append otherwise (Python dict insertion order; keys are unique in a
dict, so updating the first occurrence is exact). -/
def setNat : NatMap → Nat → Task → NatMap
  | [], k, v => [(k, v)]
  | p :: t, k, v => if p.1 = k then (k, v) :: t else p :: setNat t k v

/-- `del d[k]` on a dict with int keys. -/
def delNat (m : NatMap) (k : Nat) : NatMap :=
  m.filter (fun p => p.1 ≠ k)

/-- `d.get(k)` on a dict with string keys. -/
def lookupStr (m : StrMap) (k : String) : Option Nat :=
  (m.find? (fun p => p.1 = k)).map (fun p => p.2)

/-- `d[k] = v` on a dict with string keys (same convention as `setNat`). -/
def setStr : StrMap → String → Nat → StrMap
  | [], k, v => [(k, v)]
  | p :: t, k, v => if p.1 = k then (k, v) :: t else p :: setStr t k v

/-- `min(d.keys())` (only called on a non-empty dict in the source). -/
def minKey : NatMap → Option Nat
  | [] => none
  | (k, _) :: rest =>
    some (match minKey rest with
          | none => k
          | some m => min k m)

/-- Python truthiness of an optional task id (`if task_id and ...`):
`None` and `0` are falsy. -/
def natTruthy : Option Nat → Bool
  | none => false
  | some n => n ≠ 0

/-- Python truthiness of an optional string (`if response_id and ...`):
`None` and `""` are falsy. -/
def strTruthy : Option String → Bool
  | none => false
  | some s => s ≠ ""

/-- The mutable fields of `EventHandler` (`events.py`, `__init__`). -/
structure EHState where
  events_received : List String
  task_counter : Nat
  active_tasks : NatMap
  last_task_id : Option Nat
  item_to_task : StrMap
  response_to_task : StrMap
  deriving Repr, DecidableEq

/-- The initial `EventHandler` state (`events.py`, `__init__`). -/
def initEH : EHState :=
  { events_received := []
    task_counter := 0
    active_tasks := []
    last_task_id := none
    item_to_task := []
    response_to_task := [] }

/-- The `"item"` sub-object of a `conversation.item.created` payload. -/
structure ItemData where
  id : Option String := none
  role : Option String := none
  deriving Repr, DecidableEq

/-- The fields of an inbound event payload that the handlers read
(`data.get(...)` in `events.py`); a missing JSON field is `none`. -/
structure EventData where
  type : Option String := none
  event_id : Option String := none
  item : Option ItemData := none
  item_id : Option String := none
  transcript : Option String := none
  response_id : Option String := none
  delta : Option String := none
  text : Option String := none
  deriving Repr, DecidableEq

/-- The `(source line, translation)` pair printed when `on_text_done`
finalizes a task; `task_id = none` in the task-not-found branch, where no
source line is printed. -/
structure Report where
  task_id : Option Nat
  source : Option String
  translation : String
  deriving Repr, DecidableEq

/-- Observable output of one handler call: how many `time.sleep(1)`
bounded waits it performed, and the finalization reports it printed. -/
structure Output where
  waits : Nat
  reports : List Report
  deriving Repr, DecidableEq

/-- No waits, no reports. -/
def noOutput : Output := { waits := 0, reports := [] }

/-- The marker printed in place of a missing source
(`"[未获取到原文]"` in `on_text_done`). -/
def sourceUnavailable : String := "[未获取到原文]"

/-- `EventHandler.create_task` (`events.py` lines 82–97): increment the
counter, insert a fresh task with status `"created"`, set `last_task_id`,
return the new id. -/
def create_task (trigger_reason : String) (now : Nat) (st : EHState) :
    Nat × EHState :=
  let task_id := st.task_counter + 1
  let t : Task :=
    { source := none
      translation := none
      status := "created"
      trigger := trigger_reason
      timestamp := now }
  (task_id,
   { st with
     task_counter := task_id
     active_tasks := setNat st.active_tasks task_id t
     last_task_id := some task_id })

/-- `EventHandler.on_speech_stopped` (lines 115–127): create a task with
trigger `"vad"`; the `event_id` is only logged. -/
def on_speech_stopped (_data : EventData) (now : Nat) (st : EHState) :
    EHState :=
  (create_task "vad" now st).2

/-- `EventHandler.on_response_created` (lines 134–141): if `response_id`
and `last_task_id` are truthy, assign
`response_to_task[response_id] = last_task_id` (plain dict assignment:
an existing binding is overwritten). -/
def on_response_created (data : EventData) (st : EHState) : EHState :=
  if strTruthy data.response_id && natTruthy st.last_task_id then
    match data.response_id, st.last_task_id with
    | some rid, some tid =>
      { st with response_to_task := setStr st.response_to_task rid tid }
    | _, _ => st
  else st

/-- `EventHandler.on_item_created` (lines 143–152): if the item role is
`"user"` and `item.id` and `last_task_id` are truthy, assign
`item_to_task[item_id] = last_task_id` (plain dict assignment). -/
def on_item_created (data : EventData) (st : EHState) : EHState :=
  let item := data.item.getD {}
  let item_id := item.id
  let item_role := item.role
  if item_role = some "user" && strTruthy item_id && natTruthy st.last_task_id
  then
    match item_id, st.last_task_id with
    | some iid, some tid =>
      { st with item_to_task := setStr st.item_to_task iid tid }
    | _, _ => st
  else st

/-- Python `m.get(k, default)` where `k` itself may be `None` (a `None`
key is never present in these string-keyed dicts). -/
def pyDictGetOr (m : StrMap) (k : Option String) (default : Option Nat) :
    Option Nat :=
  match k with
  | none => default
  | some s =>
    match lookupStr m s with
    | some v => some v
    | none => default

/-- The not-found fallback inside `on_transcription_completed` (lines
179–186): after printing the source anyway, store it into the task of
`last_task_id` when that id is truthy and present. -/
def store_source_to_last (transcript : String) (st : EHState) : EHState :=
  match st.last_task_id with
  | some lid =>
    if lid = 0 then st
    else
      match lookupNat st.active_tasks lid with
      | some task =>
        { st with
          active_tasks :=
            setNat st.active_tasks lid { task with source := some transcript } }
      | none => st
  | none => st

/-- `EventHandler.on_transcription_completed` (lines 154–186): return
early when the transcript is missing or empty; otherwise resolve the task
via `item_to_task.get(item_id, last_task_id)` and store the transcript in
its `source` field (the status is not touched), falling back to
the task of `last_task_id` when the resolved id is falsy or absent. -/
def on_transcription_completed (data : EventData) (st : EHState) :
    EHState :=
  let transcript := data.transcript.getD ""
  if transcript = "" then st
  else
    let task_id := pyDictGetOr st.item_to_task data.item_id st.last_task_id
    match task_id, task_id.bind (lookupNat st.active_tasks) with
    | some tid, some task =>
      if tid = 0 then store_source_to_last transcript st
      else
        { st with
          active_tasks :=
            setNat st.active_tasks tid { task with source := some transcript } }
    | _, _ => store_source_to_last transcript st

/-- `EventHandler.on_text_done` (lines 201–246): return early when the
text is missing or empty; otherwise resolve the task via
`response_to_task.get(response_id, last_task_id)`.  If found: store the
translation, set status `"completed"`, perform one `time.sleep(1)` bounded
wait when the source is still falsy, print the `(source, translation)`
report substituting the unavailable marker, and evict the smallest-id task
when more than 10 tasks are active.  If not found: print the translation
alone. -/
def on_text_done (data : EventData) (st : EHState) : EHState × Output :=
  let text := data.text.getD ""
  if text = "" then (st, noOutput)
  else
    let task_id := pyDictGetOr st.response_to_task data.response_id st.last_task_id
    match task_id, task_id.bind (lookupNat st.active_tasks) with
    | some tid, some task =>
      if tid = 0 then
        (st, { waits := 0,
               reports := [{ task_id := none, source := none, translation := text }] })
      else
        let task1 := { task with translation := some text,
                                 status := "completed" }
        let st1 := { st with active_tasks := setNat st.active_tasks tid task1 }
        -- `if not task.get("source"): time.sleep(1)` — the sleep runs on
        -- the single event-dispatch thread, so no event is handled during
        -- it and the task is unchanged when the handler resumes.
        let waits := if strTruthy task1.source then 0 else 1
        let source :=
          match task1.source with
          | some s => if s = "" then sourceUnavailable else s
          | none => sourceUnavailable
        let report : Report :=
          { task_id := some tid, source := some source, translation := text }
        -- clean up old tasks (keep the most recent 10)
        let st2 :=
          if st1.active_tasks.length > 10 then
            match minKey st1.active_tasks with
            | some oldest => { st1 with active_tasks := delNat st1.active_tasks oldest }
            | none => st1
          else st1
        (st2, { waits := waits, reports := [report] })
    | _, _ =>
      (st, { waits := 0,
             reports := [{ task_id := none, source := none, translation := text }] })

/-- The dispatch table of `EventHandler.handle_event` (lines 62–80):
handlers for the mapped event types; every other type leaves the state
unchanged.  Display-only handlers (`on_session_created`, `on_speech_started`,
`on_audio_committed`, `on_output_item_done`, `on_text_delta`,
`on_response_done`, `on_error`) only log/print. -/
def dispatch (data : EventData) (now : Nat) (st : EHState) :
    EHState × Output :=
  match data.type.getD "unknown" with
  | "input_audio_buffer.speech_stopped" => (on_speech_stopped data now st, noOutput)
  | "conversation.item.created" => (on_item_created data st, noOutput)
  | "conversation.item.input_audio_transcription.completed" =>
      (on_transcription_completed data st, noOutput)
  | "response.created" => (on_response_created data st, noOutput)
  | "response.text.done" => on_text_done data st
  | _ => (st, noOutput)

/-- `EventHandler.handle_event` (lines 29–80): append the event type to
`events_received`, then dispatch to the matching handler. -/
def handle_event (data : EventData) (now : Nat) (st : EHState) :
    EHState × Output :=
  let event_type := data.type.getD "unknown"
  dispatch data now
    { st with events_received := st.events_received ++ [event_type] }

/-! ### `client.py` — outbound side of `RealtimeClient`

`send_message` serialises the dict and calls `ws.send`, which may raise;
the boolean oracle `wireOk` abstracts whether that call succeeds.  The
client records, per call, the messages it attempted to hand to `ws.send`
(reached the `try` block) and those the send did not raise on. -/

/-- The outbound message types built in `client.py`. -/
inductive OutMsg where
  | audioAppend (audio_base64 : String)
  | sessionUpdate
  | bufferCommit
  | responseCreate
  | bufferClear
  | responseCancel
  deriving Repr, DecidableEq

/-- The fields of `RealtimeClient` that `send_message` reads and the
transmission log the theorems observe. -/
structure ClientState where
  is_connected : Bool
  attempted : List OutMsg
  sent : List OutMsg
  deriving Repr, DecidableEq

/-- `RealtimeClient.send_message` (`client.py` lines 112–130): when not
connected, log a warning and return `False` without touching the socket;
otherwise attempt `ws.send` (oracle `wireOk`), returning `True` on
success and `False` when it raises. -/
def send_message (wireOk : Bool) (m : OutMsg) (st : ClientState) :
    Bool × ClientState :=
  if !st.is_connected then
    (false, st)
  else
    let st1 := { st with attempted := st.attempted ++ [m] }
    if wireOk then
      (true, { st1 with sent := st1.sent ++ [m] })
    else
      (false, st1)

/-- `RealtimeClient.send_audio` (lines 132–143). -/
def send_audio (wireOk : Bool) (audio_base64 : String) (st : ClientState) :
    Bool × ClientState :=
  send_message wireOk (OutMsg.audioAppend audio_base64) st

/-- `RealtimeClient.configure_session` (lines 145–169); the contents of the config dict do not affect control flow. -/
def configure_session (wireOk : Bool) (st : ClientState) :
    Bool × ClientState :=
  send_message wireOk OutMsg.sessionUpdate st

/-- `RealtimeClient.create_response` (lines 192–210). -/
def create_response (wireOk : Bool) (st : ClientState) :
    Bool × ClientState :=
  send_message wireOk OutMsg.responseCreate st

/-- `RealtimeClient.commit_audio_buffer` (lines 171–190): send the commit
message; on success, immediately call `create_response`; return the result of the commit
send itself. -/
def commit_audio_buffer (wireOk1 wireOk2 : Bool) (st : ClientState) :
    Bool × ClientState :=
  let r := send_message wireOk1 OutMsg.bufferCommit st
  if r.1 then
    let r2 := create_response wireOk2 r.2
    (r.1, r2.2)
  else
    (r.1, r.2)

/-! ### `main.py` — the timeout-commit scheduler of the audio-send loop

`_audio_send_loop` (lines 100–159) keeps two loop-local counters and
`self.last_commit_time`; one iteration optionally sends a chunk, then
fires the forced timeout commit when at least `force_commit_interval`
seconds have passed since `last_commit_time` and chunks were sent since
the last commit.  Time is abstracted to `Nat` seconds.  Inbound events
are dispatched on the websocket thread and touch only the `EventHandler`;
no handler reads or writes the loop counters or `last_commit_time`. -/

/-- `force_commit_interval = 8.0` (`main.py` line 44). -/
def force_commit_interval : Nat := 8

/-- The loop-local scheduler state of `_audio_send_loop`. -/
structure LoopState where
  chunks_sent : Nat
  chunks_since_last_commit : Nat
  last_commit_time : Nat
  deriving Repr, DecidableEq

/-- One iteration of `_audio_send_loop` (lines 108–153): `chunkOk` is
whether a chunk was obtained, validated, encoded and sent; `t` is
`time.time()` at the check.  Returns the new loop state, the new handler
state, and whether a `"timeout"` task was created this iteration. -/
def loop_iter (chunkOk : Bool) (t : Nat) (ls : LoopState) (eh : EHState) :
    LoopState × EHState × Bool :=
  let cs := if chunkOk then ls.chunks_sent + 1 else ls.chunks_sent
  let cslc := if chunkOk then ls.chunks_since_last_commit + 1
              else ls.chunks_since_last_commit
  if t - ls.last_commit_time ≥ force_commit_interval then
    if cslc > 0 then
      let eh1 := (create_task "timeout" t eh).2
      ({ chunks_sent := cs, chunks_since_last_commit := 0,
         last_commit_time := t }, eh1, true)
    else
      ({ chunks_sent := cs, chunks_since_last_commit := cslc,
         last_commit_time := t }, eh, false)
  else
    ({ chunks_sent := cs, chunks_since_last_commit := cslc,
       last_commit_time := ls.last_commit_time }, eh, false)

/-- An observable step of the running system: either one iteration of the
audio-send loop, or the websocket thread delivering one inbound event at
time `t` (`RealtimeClient._on_message` → `handle_event`). -/
inductive Action where
  | loopIter (chunkOk : Bool) (t : Nat)
  | deliver (data : EventData) (t : Nat)
  deriving Repr, DecidableEq

/-- Apply one action to the combined loop/handler state (event delivery
never touches the loop state: the counters are local to
`_audio_send_loop` and no handler writes `last_commit_time`). -/
def stepAction (a : Action) (s : LoopState × EHState) :
    LoopState × EHState :=
  match a with
  | Action.loopIter chunkOk t =>
    let r := loop_iter chunkOk t s.1 s.2
    (r.1, r.2.1)
  | Action.deliver data t => (s.1, (handle_event data t s.2).1)

/-- Run a list of actions from a combined state. -/
def runActions (as : List Action) (s : LoopState × EHState) :
    LoopState × EHState :=
  as.foldl (fun s a => stepAction a s) s

/-! ### Concrete scenarios referenced by the theorems -/

/-- `n` sequential `create_task "vad"` calls at clock values `0, 1, …`. -/
def createsN (n : Nat) (st : EHState) : EHState :=
  (List.range n).foldl (fun s i => (create_task "vad" i s).2) st

/-- Sequential `create_task` calls from a list of `(trigger, clock)` pairs,
collecting the returned ids. -/
def createRun : List (String × Nat) → EHState → List Nat × EHState
  | [], st => ([], st)
  | (r, now) :: rest, st =>
    let p := create_task r now st
    let q := createRun rest p.2
    (p.1 :: q.1, q.2)

/-- An `input_audio_buffer.speech_stopped` event (payload unused). -/
def vadStopEvent : EventData := { type := some "input_audio_buffer.speech_stopped" }

/-- A `response.created` event carrying response id `"r"`. -/
def respEventR : EventData :=
  { type := some "response.created", response_id := some "r" }

/-- One task created, then `"r"` bound to it. -/
def c2_afterFirstBind : EHState :=
  (handle_event respEventR 1 (create_task "vad" 0 initEH).2).1

/-- A second task created, then the same `response.created` event for `"r"`
delivered again. -/
def c2_final : EHState :=
  (handle_event respEventR 3 (create_task "vad" 2 c2_afterFirstBind).2).1

/-- One vad task, then a user `conversation.item.created` event for `"i1"`. -/
def c3_afterItem : EHState :=
  (handle_event { type := some "conversation.item.created",
                  item := some { id := some "i1", role := some "user" } } 1
    (handle_event vadStopEvent 0 initEH).1).1

/-- … then the transcription-completed event for `"i1"`. -/
def c3_afterTrans : EHState :=
  (handle_event { type := some "conversation.item.input_audio_transcription.completed",
                  item_id := some "i1", transcript := some "hello" } 2 c3_afterItem).1

/-- One vad task (id 1) and nothing else. -/
def sc_vad1 : EHState := (handle_event vadStopEvent 0 initEH).1

/-- The translation-completed event handled while task 1 still has no
source (it resolves to task 1 via `last_task_id`). -/
def sc_td : EHState × Output :=
  handle_event { type := some "response.text.done", text := some "X" } 1 sc_vad1

/-- … then the transcription-completed event, handled next (it was queued
behind the text-done callback on the single websocket dispatch thread). -/
def sc_afterTrans : EHState :=
  (handle_event { type := some "conversation.item.input_audio_transcription.completed",
                  transcript := some "hola" } 2 sc_td.1).1

/-- The loop state at the start of `_audio_send_loop`, with
`last_commit_time` abstracted to clock value 0. -/
def c4_loop0 : LoopState :=
  { chunks_sent := 0, chunks_since_last_commit := 0, last_commit_time := 0 }

/-! ### Association-list lemmas -/

theorem lookupNat_setNat (m : NatMap) (k : Nat) (v : Task) :
    lookupNat (setNat m k v) k = some v := by
  induction m with
  | nil => simp [setNat, lookupNat, List.find?]
  | cons p t ih =>
    by_cases hp : p.1 = k
    · simp [setNat, lookupNat, List.find?, hp]
    · simpa [setNat, lookupNat, List.find?, hp] using ih

theorem lookupNat_setNat_ne (m : NatMap) (k k' : Nat) (v : Task)
    (h : k' ≠ k) : lookupNat (setNat m k v) k' = lookupNat m k' := by
  have hk : ¬ (k : Nat) = k' := fun hk => h hk.symm
  induction m with
  | nil => simp [setNat, lookupNat, List.find?, hk]
  | cons p t ih =>
    simp only [setNat]
    by_cases hp : p.1 = k
    · rw [if_pos hp]
      have hp' : ¬ p.1 = k' := by rw [hp]; exact hk
      simp [lookupNat, List.find?, hk, hp']
    · rw [if_neg hp]
      by_cases hpk' : p.1 = k'
      · simp [lookupNat, List.find?, hpk']
      · simpa [lookupNat, List.find?, hpk'] using ih

theorem lookupNat_delNat_self (m : NatMap) (k : Nat) :
    lookupNat (delNat m k) k = none := by
  unfold lookupNat delNat
  induction m with
  | nil => rfl
  | cons p t ih =>
    by_cases hp : p.1 = k
    · simp only [List.filter_cons]
      rw [if_neg (by simp [hp])]
      exact ih
    · simp only [List.filter_cons]
      rw [if_pos (by simp [hp])]
      simp only [List.find?_cons]
      rw [show (decide (p.1 = k) : Bool) = false by simp [hp]]
      exact ih

theorem lookupNat_delNat_ne (m : NatMap) (k k' : Nat) (h : k' ≠ k) :
    lookupNat (delNat m k) k' = lookupNat m k' := by
  unfold lookupNat delNat
  induction m with
  | nil => rfl
  | cons p t ih =>
    by_cases hp : p.1 = k
    · have hp' : ¬ p.1 = k' := by rw [hp]; exact fun hk => h hk.symm
      simp only [List.filter_cons]
      rw [if_neg (by simp [hp])]
      simp only [List.find?_cons]
      rw [show (decide (p.1 = k') : Bool) = false by simp [hp']]
      exact ih
    · simp only [List.filter_cons]
      rw [if_pos (by simp [hp])]
      by_cases hpk' : p.1 = k'
      · simp [List.find?, hpk']
      · simp only [List.find?_cons]
        rw [show (decide (p.1 = k') : Bool) = false by simp [hpk']]
        exact ih

theorem length_setNat_present (m : NatMap) (k : Nat) (v : Task)
    (h : (lookupNat m k).isSome) :
    (setNat m k v).length = m.length := by
  induction m with
  | nil => simp [lookupNat, List.find?] at h
  | cons p t ih =>
    by_cases hp : p.1 = k
    · simp [setNat, hp]
    · have ht : (lookupNat t k).isSome := by
        simpa [lookupNat, List.find?, hp] using h
      simpa [setNat, hp] using ih ht

theorem lookupStr_setStr (m : StrMap) (k : String) (v : Nat) :
    lookupStr (setStr m k v) k = some v := by
  induction m with
  | nil => simp [setStr, lookupStr, List.find?]
  | cons p t ih =>
    by_cases hp : p.1 = k
    · simp [setStr, lookupStr, List.find?, hp]
    · simpa [setStr, lookupStr, List.find?, hp] using ih

theorem setStr_idem (m : StrMap) (k : String) (v : Nat) :
    setStr (setStr m k v) k v = setStr m k v := by
  induction m with
  | nil => simp [setStr]
  | cons p t ih =>
    by_cases hp : p.1 = k
    · simp [setStr, hp]
    · simp [setStr, hp, ih]

theorem length_le_setNat (m : NatMap) (k : Nat) (v : Task) :
    m.length ≤ (setNat m k v).length := by
  induction m with
  | nil => simp [setNat]
  | cons p t ih =>
    by_cases hp : p.1 = k
    · simp [setNat, hp]
    · simpa [setNat, hp] using ih

/-- `on_item_created` writes only the `item_to_task` map; every other
field of the handler state, in particular `active_tasks`, is unchanged. -/
theorem on_item_created_frame (d : EventData) (st : EHState) :
    (on_item_created d st).active_tasks = st.active_tasks ∧
    (on_item_created d st).last_task_id = st.last_task_id ∧
    (on_item_created d st).task_counter = st.task_counter := by
  refine ⟨?_, ?_, ?_⟩
  all_goals
    simp only [on_item_created]
    split
    · split <;> rfl
    · rfl

/-- `on_response_created` writes only the `response_to_task` map. -/
theorem on_response_created_frame (d : EventData) (st : EHState) :
    (on_response_created d st).active_tasks = st.active_tasks ∧
    (on_response_created d st).last_task_id = st.last_task_id ∧
    (on_response_created d st).task_counter = st.task_counter := by
  refine ⟨?_, ?_, ?_⟩
  all_goals
    simp only [on_response_created]
    split
    · split <;> rfl
    · rfl

/-- When a loop iteration fires the timeout trigger, it resets
`last_commit_time` to the current time, and at least one full
`force_commit_interval` had elapsed since the previous reset. -/
theorem loop_iter_fire_time (c : Bool) (t : Nat) (ls : LoopState)
    (eh : EHState) (h : (loop_iter c t ls eh).2.2 = true) :
    (loop_iter c t ls eh).1.last_commit_time = t ∧
    ls.last_commit_time + force_commit_interval ≤ t := by
  by_cases h1 : t - ls.last_commit_time ≥ force_commit_interval
  case pos =>
    by_cases h2 : (if c then ls.chunks_since_last_commit + 1
                   else ls.chunks_since_last_commit) > 0
    case pos =>
      have he : loop_iter c t ls eh =
          ({ chunks_sent := if c then ls.chunks_sent + 1 else ls.chunks_sent,
             chunks_since_last_commit := 0, last_commit_time := t },
           (create_task "timeout" t eh).2, true) := by
        simp only [loop_iter]
        rw [if_pos h1, if_pos h2]
      rw [he]
      refine ⟨rfl, ?_⟩
      unfold force_commit_interval at h1 ⊢
      omega
    case neg =>
      have he : (loop_iter c t ls eh).2.2 = false := by
        simp only [loop_iter]
        rw [if_pos h1, if_neg h2]
      rw [he] at h
      exact absurd h (by simp)
  case neg =>
    have he : (loop_iter c t ls eh).2.2 = false := by
      simp only [loop_iter]
      rw [if_neg h1]
    rw [he] at h
    exact absurd h (by simp)

/-- The key list of a map. -/
def keysOf (m : NatMap) : List Nat := m.map Prod.fst

/-- `minKey` only depends on the key list. -/
def keysMin : List Nat → Option Nat
  | [] => none
  | k :: rest =>
    some (match keysMin rest with
          | none => k
          | some m => min k m)

theorem minKey_eq_keysMin (m : NatMap) : minKey m = keysMin (keysOf m) := by
  induction m with
  | nil => rfl
  | cons p t ih => simp [minKey, keysMin, keysOf, ih]

theorem keys_setNat_present (m : NatMap) (k : Nat) (v : Task)
    (h : (lookupNat m k).isSome) : keysOf (setNat m k v) = keysOf m := by
  induction m with
  | nil => simp [lookupNat, List.find?] at h
  | cons p t ih =>
    by_cases hp : p.1 = k
    · simp [setNat, keysOf, hp]
    · have ht : (lookupNat t k).isSome := by
        simpa [lookupNat, List.find?, hp] using h
      simpa [setNat, keysOf, hp] using ih ht

/-- `store_source_to_last` either leaves the map untouched, or overwrites
exactly the `source` field of one existing task. -/
theorem store_source_lookup (tr : String) (st : EHState) (tid : Nat) :
    lookupNat (store_source_to_last tr st).active_tasks tid =
        lookupNat st.active_tasks tid ∨
    (∃ w, lookupNat st.active_tasks tid = some w ∧
      lookupNat (store_source_to_last tr st).active_tasks tid =
        some { w with source := some tr }) := by
  rcases hl : st.last_task_id with _ | lid
  · left
    simp [store_source_to_last, hl]
  · by_cases h0 : lid = 0
    · left
      simp [store_source_to_last, hl, h0]
    · rcases hlk : lookupNat st.active_tasks lid with _ | task
      · left
        simp [store_source_to_last, hl, h0, hlk]
      · have hmain : (store_source_to_last tr st).active_tasks =
            setNat st.active_tasks lid { task with source := some tr } := by
          simp [store_source_to_last, hl, h0, hlk]
        by_cases htid : tid = lid
        · subst htid
          right
          exact ⟨task, hlk, by rw [hmain, lookupNat_setNat]⟩
        · left
          rw [hmain, lookupNat_setNat_ne _ _ _ _ htid]

/-- `on_transcription_completed` either leaves the map untouched, or
overwrites exactly the `source` field of one existing task. -/
theorem trans_lookup (d : EventData) (st : EHState) (tid : Nat) :
    lookupNat (on_transcription_completed d st).active_tasks tid =
        lookupNat st.active_tasks tid ∨
    (∃ w s, lookupNat st.active_tasks tid = some w ∧
      lookupNat (on_transcription_completed d st).active_tasks tid =
        some { w with source := some s }) := by
  by_cases htr : d.transcript.getD "" = ""
  · left
    simp [on_transcription_completed, htr]
  · have hstore : ∀ (hmain : on_transcription_completed d st =
        store_source_to_last (d.transcript.getD "") st),
        lookupNat (on_transcription_completed d st).active_tasks tid =
            lookupNat st.active_tasks tid ∨
        (∃ w s, lookupNat st.active_tasks tid = some w ∧
          lookupNat (on_transcription_completed d st).active_tasks tid =
            some { w with source := some s }) := by
      intro hmain
      rw [hmain]
      rcases store_source_lookup (d.transcript.getD "") st tid with h | ⟨w, hw, h⟩
      · exact Or.inl h
      · exact Or.inr ⟨w, _, hw, h⟩
    rcases hti : pyDictGetOr st.item_to_task d.item_id st.last_task_id
        with _ | tid₂
    · exact hstore (by simp [on_transcription_completed, htr, hti])
    · rcases hlk : lookupNat st.active_tasks tid₂ with _ | task₂
      · exact hstore (by simp [on_transcription_completed, htr, hti, hlk])
      · by_cases h0 : tid₂ = 0
        · subst h0
          exact hstore
            (by simp [on_transcription_completed, htr, hti, hlk])
        · have hmain : (on_transcription_completed d st).active_tasks =
              setNat st.active_tasks tid₂
                { task₂ with source := some (d.transcript.getD "") } := by
            simp [on_transcription_completed, htr, hti, hlk, h0]
          by_cases htid : tid = tid₂
          · subst htid
            right
            exact ⟨task₂, d.transcript.getD "", hlk,
              by rw [hmain, lookupNat_setNat]⟩
          · left
            rw [hmain, lookupNat_setNat_ne _ _ _ _ htid]

/-- `on_text_done` either leaves the map untouched, finalizes one existing
task (overwriting only `translation` and `status`), or — when the cap is
exceeded — additionally removes the task with the smallest id. -/
theorem text_done_lookup (d : EventData) (st : EHState) (tid : Nat) :
    lookupNat (on_text_done d st).1.active_tasks tid =
        lookupNat st.active_tasks tid ∨
    (∃ w s, lookupNat st.active_tasks tid = some w ∧
      lookupNat (on_text_done d st).1.active_tasks tid =
        some { w with translation := some s, status := "completed" }) ∨
    (lookupNat (on_text_done d st).1.active_tasks tid = none ∧
      10 < st.active_tasks.length ∧ minKey st.active_tasks = some tid) := by
  by_cases htext : d.text.getD "" = ""
  · left
    simp [on_text_done, htext]
  · rcases hti : pyDictGetOr st.response_to_task d.response_id st.last_task_id
        with _ | tid₂
    · left
      simp [on_text_done, htext, hti]
    · rcases hlk : lookupNat st.active_tasks tid₂ with _ | task₂
      · left
        simp [on_text_done, htext, hti, hlk]
      · by_cases h0 : tid₂ = 0
        · subst h0
          left
          simp [on_text_done, htext, hti, hlk]
        · have hpres : (lookupNat st.active_tasks tid₂).isSome := by
            simp [hlk]
          have hkeys : keysOf (setNat st.active_tasks tid₂
              { task₂ with translation := some (d.text.getD ""),
                           status := "completed" }) = keysOf st.active_tasks :=
            keys_setNat_present _ _ _ hpres
          have hlen : (setNat st.active_tasks tid₂
              { task₂ with translation := some (d.text.getD ""),
                           status := "completed" }).length =
              st.active_tasks.length := by
            have := congrArg List.length hkeys
            simpa [keysOf] using this
          have hmin : minKey (setNat st.active_tasks tid₂
              { task₂ with translation := some (d.text.getD ""),
                           status := "completed" }) = minKey st.active_tasks := by
            rw [minKey_eq_keysMin, minKey_eq_keysMin, hkeys]
          by_cases hgt : (setNat st.active_tasks tid₂
              { task₂ with translation := some (d.text.getD ""),
                           status := "completed" }).length > 10
          · rcases hmk : minKey (setNat st.active_tasks tid₂
                { task₂ with translation := some (d.text.getD ""),
                             status := "completed" }) with _ | oldest
            · have hmain : (on_text_done d st).1.active_tasks =
                  setNat st.active_tasks tid₂
                    { task₂ with translation := some (d.text.getD ""),
                                 status := "completed" } := by
                simp [on_text_done, htext, hti, hlk, h0, hgt, hmk]
              by_cases htid : tid = tid₂
              · subst htid
                right; left
                exact ⟨task₂, d.text.getD "", hlk, by rw [hmain, lookupNat_setNat]⟩
              · left
                rw [hmain, lookupNat_setNat_ne _ _ _ _ htid]
            · have hmain : (on_text_done d st).1.active_tasks =
                  delNat (setNat st.active_tasks tid₂
                    { task₂ with translation := some (d.text.getD ""),
                                 status := "completed" }) oldest := by
                simp [on_text_done, htext, hti, hlk, h0, hgt, hmk]
              by_cases htid : tid = oldest
              · subst htid
                right; right
                refine ⟨by rw [hmain, lookupNat_delNat_self], ?_, ?_⟩
                · rw [hlen] at hgt
                  exact hgt
                · rw [← hmin, hmk]
              · by_cases htid₂ : tid = tid₂
                · subst htid₂
                  right; left
                  refine ⟨task₂, d.text.getD "", hlk, ?_⟩
                  rw [hmain, lookupNat_delNat_ne _ _ _ htid, lookupNat_setNat]
                · left
                  rw [hmain, lookupNat_delNat_ne _ _ _ htid,
                    lookupNat_setNat_ne _ _ _ _ htid₂]
          · have hmain : (on_text_done d st).1.active_tasks =
                setNat st.active_tasks tid₂
                  { task₂ with translation := some (d.text.getD ""),
                               status := "completed" } := by
              simp [on_text_done, htext, hti, hlk, h0, hgt]
            by_cases htid : tid = tid₂
            · subst htid
              right; left
              exact ⟨task₂, d.text.getD "", hlk, by rw [hmain, lookupNat_setNat]⟩
            · left
              rw [hmain, lookupNat_setNat_ne _ _ _ _ htid]

/-- `create_task` never touches a task whose id is within the counter
range (reachable states never hold ids above the counter). -/
theorem create_task_lookup (r : String) (now : Nat) (st : EHState)
    (tid : Nat) (hb : tid ≤ st.task_counter) :
    lookupNat ((create_task r now st).2).active_tasks tid =
      lookupNat st.active_tasks tid := by
  have hne : tid ≠ st.task_counter + 1 := by omega
  simp only [create_task]
  exact lookupNat_setNat_ne _ _ _ _ hne

/-- One dispatched inbound event either leaves a given task entry (with id
within the counter range) untouched, overwrites only its `source`,
finalizes it (`translation` plus status `"completed"`), or removes it by
the cap-10 eviction of the smallest id. -/
theorem dispatch_lookup (d : EventData) (now : Nat) (st : EHState)
    (tid : Nat) (hb : tid ≤ st.task_counter) :
    lookupNat (dispatch d now st).1.active_tasks tid =
        lookupNat st.active_tasks tid ∨
    (∃ w s, lookupNat st.active_tasks tid = some w ∧
      lookupNat (dispatch d now st).1.active_tasks tid =
        some { w with source := some s }) ∨
    (∃ w s, lookupNat st.active_tasks tid = some w ∧
      lookupNat (dispatch d now st).1.active_tasks tid =
        some { w with translation := some s, status := "completed" }) ∨
    (lookupNat (dispatch d now st).1.active_tasks tid = none ∧
      10 < st.active_tasks.length ∧ minKey st.active_tasks = some tid) := by
  unfold dispatch
  split
  · exact Or.inl (create_task_lookup "vad" now st tid hb)
  · left
    rw [show (on_item_created d st, noOutput).1 = on_item_created d st from rfl,
      (on_item_created_frame d st).1]
  · rcases trans_lookup d st tid with h | ⟨w, s, hw, h⟩
    · exact Or.inl h
    · exact Or.inr (Or.inl ⟨w, s, hw, h⟩)
  · left
    rw [show (on_response_created d st, noOutput).1 = on_response_created d st
      from rfl, (on_response_created_frame d st).1]
  · rcases text_done_lookup d st tid with h | ⟨w, s, hw, h⟩ | ⟨h1, h2, h3⟩
    · exact Or.inl h
    · exact Or.inr (Or.inr (Or.inl ⟨w, s, hw, h⟩))
    · exact Or.inr (Or.inr (Or.inr ⟨h1, h2, h3⟩))
  · exact Or.inl rfl

/-- Same as `dispatch_lookup`, lifted through `handle_event` (which only
appends to `events_received` before dispatching). -/
theorem handle_event_lookup (d : EventData) (now : Nat) (st : EHState)
    (tid : Nat) (hb : tid ≤ st.task_counter) :
    lookupNat (handle_event d now st).1.active_tasks tid =
        lookupNat st.active_tasks tid ∨
    (∃ w s, lookupNat st.active_tasks tid = some w ∧
      lookupNat (handle_event d now st).1.active_tasks tid =
        some { w with source := some s }) ∨
    (∃ w s, lookupNat st.active_tasks tid = some w ∧
      lookupNat (handle_event d now st).1.active_tasks tid =
        some { w with translation := some s, status := "completed" }) ∨
    (lookupNat (handle_event d now st).1.active_tasks tid = none ∧
      10 < st.active_tasks.length ∧ minKey st.active_tasks = some tid) :=
  dispatch_lookup d now
    { st with events_received := st.events_received ++ [d.type.getD "unknown"] }
    tid hb

/-! ### Claim theorems -/

/-- Claim C1, counterexample: task creation does NOT enforce the cap-10
eviction as a post-condition — after 11 sequential `create_task` calls the
map holds all eleven tasks and task #1 is still present, contradicting the
claim that task #1 would be absent. -/
theorem C1_counterexample :
    (createsN 11 initEH).active_tasks.map Prod.fst =
      [1, 2, 3, 4, 5, 6, 7, 8, 9, 10, 11] ∧
    lookupNat (createsN 11 initEH).active_tasks 1 ≠ none := by
  decide

/-- Claim C1, amended: the cap-10 eviction (remove the smallest id when
`|active_tasks| > 10`) is a post-condition of translation finalization in
`on_text_done`, not of task creation; `create_task` never removes tasks,
so after 11 sequential creations tasks #1–#11 are all present, and the
next text-done finalization (resolving to task #11 via `last_task_id`)
evicts the smallest id #1, leaving exactly #2–#11. -/
theorem C1_amended_eviction :
    (∀ r now st,
      st.active_tasks.length ≤ ((create_task r now st).2).active_tasks.length) ∧
    (createsN 11 initEH).active_tasks.map Prod.fst =
      [1, 2, 3, 4, 5, 6, 7, 8, 9, 10, 11] ∧
    ((on_text_done { type := some "response.text.done", text := some "T" }
        (createsN 11 initEH)).1).active_tasks.map Prod.fst =
      [2, 3, 4, 5, 6, 7, 8, 9, 10, 11] := by
  refine ⟨?_, by decide, by decide⟩
  intro r now st
  simpa [create_task] using
    length_le_setNat st.active_tasks (st.task_counter + 1) _

/-- Claim C2, counterexample: correlation bindings are NOT first-sight-wins:
after response id `"r"` is bound to task 1, re-delivering the same
`response.created` event after an intervening task creation reassigns
`"r"` to task 2, so resolving `"r"` no longer returns task 1. -/
theorem C2_counterexample :
    lookupStr c2_afterFirstBind.response_to_task "r" = some 1 ∧
    lookupStr c2_final.response_to_task "r" = some 2 := by
  decide

/-- Claim C2, amended: binding an item id or response id is a plain
last-write-wins dict assignment of the current `last_task_id`: re-delivery
of the binding event while `last_task_id` is unchanged is an idempotent
no-op, but re-delivery after an intervening task creation reassigns the
binding to the newer task. -/
theorem C2_amended_binding (st : EHState) (rid iid : String) (n : Nat)
    (hrid : rid ≠ "") (hiid : iid ≠ "")
    (hlast : st.last_task_id = some n) (hn : n ≠ 0) :
    lookupStr (on_response_created { response_id := some rid } st).response_to_task
      rid = some n ∧
    lookupStr (on_item_created
        { item := some { id := some iid, role := some "user" } } st).item_to_task
      iid = some n ∧
    on_response_created { response_id := some rid }
        (on_response_created { response_id := some rid } st) =
      on_response_created { response_id := some rid } st := by
  refine ⟨?_, ?_, ?_⟩
  · simp [on_response_created, strTruthy, natTruthy, hrid, hlast, hn,
      lookupStr_setStr]
  · simp [on_item_created, strTruthy, natTruthy, hiid, hlast, hn,
      lookupStr_setStr]
  · simp [on_response_created, strTruthy, natTruthy, hrid, hlast, hn,
      setStr_idem]

/-- Claim C2, witness for the amended theorem at a concrete state: one
task created, then `"r"` bound; resolution returns task 1. -/
theorem C2_amended_binding_witness :
    lookupStr (on_response_created { response_id := some "r" }
      (create_task "vad" 0 initEH).2).response_to_task "r" = some 1 :=
  (C2_amended_binding (create_task "vad" 0 initEH).2 "r" "i" 1
    (by decide) (by decide) rfl (by decide)).1

/-- Claim C3, counterexample: the per-task status machine does NOT advance
as specified: after the user `conversation.item.created` event the binding
is recorded but the status of task 1 is still `"created"` (not
source-pending), and after the transcription-completed event the source is
stored but the status is still `"created"` (not source-captured). -/
theorem C3_counterexample :
    lookupStr c3_afterItem.item_to_task "i1" = some 1 ∧
    (lookupNat c3_afterItem.active_tasks 1).map Task.status = some "created" ∧
    lookupNat c3_afterTrans.active_tasks 1 =
      some { source := some "hello", translation := none, status := "created",
             trigger := "vad", timestamp := 0 } := by
  decide

/-- Claim C3, amended: handling a `conversation.item.created` event records
the item→task binding but leaves every task — in particular its status —
unchanged, and handling a transcription-completed event resolved to a task
sets only its `source` field to the transcript; the status stays whatever
it was (`"created"` for a fresh task) and only `on_text_done` ever sets
`"completed"`. -/
theorem C3_amended_status (d : EventData) (st : EHState) (iid : String)
    (tid : Nat) (tr : String) (task : Task)
    (htr : tr ≠ "")
    (hres : pyDictGetOr st.item_to_task (some iid) st.last_task_id = some tid)
    (h0 : tid ≠ 0)
    (hlook : lookupNat st.active_tasks tid = some task) :
    (on_item_created d st).active_tasks = st.active_tasks ∧
    (on_transcription_completed { item_id := some iid, transcript := some tr }
        st).active_tasks = setNat st.active_tasks tid
          { task with source := some tr } ∧
    lookupNat (on_transcription_completed
        { item_id := some iid, transcript := some tr } st).active_tasks tid =
      some { source := some tr, translation := task.translation,
             status := task.status, trigger := task.trigger,
             timestamp := task.timestamp } := by
  have hmain : (on_transcription_completed
      { item_id := some iid, transcript := some tr } st).active_tasks =
      setNat st.active_tasks tid { task with source := some tr } := by
    simp [on_transcription_completed, htr, hres, hlook, h0]
  refine ⟨(on_item_created_frame d st).1, hmain, ?_⟩
  rw [hmain, lookupNat_setNat]

/-- Claim C3, witness for the amended theorem: in the concrete two-event
scenario the transcription is stored on task 1 with status still
`"created"`. -/
theorem C3_amended_status_witness :
    lookupNat (on_transcription_completed
        { item_id := some "i1", transcript := some "hello" }
        c3_afterItem).active_tasks 1 =
      some { source := some "hello", translation := none, status := "created",
             trigger := "vad", timestamp := 0 } :=
  (C3_amended_status ({} : EventData) c3_afterItem "i1" 1 "hello"
    { source := none, translation := none, status := "created",
      trigger := "vad", timestamp := 0 }
    (by decide) (by decide) (by decide) (by decide)).2.2

/-- Claim C4, counterexample: a natural voice-boundary (speech-stopped)
commit does NOT reset the timeout scheduler: delivering the vad event
leaves the loop state (timer and since-commit counter) unchanged, and with
the timer last reset at time 0 the timeout trigger still fires at time 8,
creating a second task one second after the vad commit at time 7 — within
one 8-second force-commit interval. -/
theorem C4_counterexample :
    (stepAction (Action.deliver vadStopEvent 7)
        (stepAction (Action.loopIter true 1) (c4_loop0, initEH))).1 =
      (stepAction (Action.loopIter true 1) (c4_loop0, initEH)).1 ∧
    (runActions [Action.loopIter true 1, Action.deliver vadStopEvent 7,
                 Action.loopIter false 8] (c4_loop0, initEH)).2.active_tasks.map
        (fun p => (p.1, p.2.trigger, p.2.timestamp)) =
      [(1, "vad", 7), (2, "timeout", 8)] := by
  decide

/-- Claim C4, amended: inbound event delivery — including the
speech-stopped vad commit — leaves the commit timer and the since-commit
counter of the audio-send loop unchanged (they are loop-local), so the
timeout trigger may fire within one interval of a vad commit; only a
timeout firing resets the timer, and consecutively the timeout trigger
itself cannot fire twice within one interval: a firing happens at least
one `force_commit_interval` after the previous timer reset and sets the
timer to the firing time. -/
theorem C4_amended_no_reset (t t' : Nat) (ls : LoopState)
    (eh eh' : EHState) (c c' : Bool)
    (hfire : (loop_iter c t ls eh).2.2 = true)
    (hfire' : (loop_iter c' t' (loop_iter c t ls eh).1 eh').2.2 = true) :
    (∀ d₂ t₂ s, (stepAction (Action.deliver d₂ t₂) s).1 = s.1) ∧
    (loop_iter c t ls eh).1.last_commit_time = t ∧
    ls.last_commit_time + force_commit_interval ≤ t ∧
    t + force_commit_interval ≤ t' := by
  obtain ⟨he, hge⟩ := loop_iter_fire_time c t ls eh hfire
  obtain ⟨he', hge'⟩ := loop_iter_fire_time c' t' _ eh' hfire'
  refine ⟨fun _ _ _ => rfl, he, hge, ?_⟩
  rw [he] at hge'
  exact hge'

/-- Claim C4, witness for the amended theorem: two concrete consecutive
timeout firings, at times 8 and 16, are a full interval apart. -/
theorem C4_amended_no_reset_witness :
    8 + force_commit_interval ≤ 16 :=
  (C4_amended_no_reset 8 16 c4_loop0 initEH initEH true true
    (by decide) (by decide)).2.2.2

/-- Claim C5, code behavior at the failing input: all inbound events are
dispatched sequentially on the single websocket thread, so the one-second
sleep inside `on_text_done` cannot let the queued transcription event be
applied first — in the concrete run where the text-done for task 1 is
handled while its source is unset and the transcription is handled
immediately afterwards (i.e. it arrived within the wait window), the
finalization report still carries the unavailable marker, and the
transcript lands in the task only after the report was printed. -/
theorem C5_code_behavior :
    sc_td.2.waits = 1 ∧
    sc_td.2.reports =
      [{ task_id := some 1, source := some sourceUnavailable,
         translation := "X" }] ∧
    (lookupNat sc_afterTrans.active_tasks 1).map Task.source =
      some (some "hola") := by
  decide

/-- Claim C6, counterexample: a completed task is NOT immutable: task 1 is
finalized by the text-done event with status `"completed"` and no source,
and the transcription-completed event handled afterwards overwrites the
`source` field of that completed task. -/
theorem C6_counterexample :
    lookupNat sc_td.1.active_tasks 1 =
      some { source := none, translation := some "X", status := "completed",
             trigger := "vad", timestamp := 0 } ∧
    lookupNat sc_afterTrans.active_tasks 1 =
      some { source := some "hola", translation := some "X",
             status := "completed", trigger := "vad", timestamp := 0 } := by
  decide

/-- Claim C6, amended: once a task is `"completed"`, every subsequently
handled inbound event leaves its `status`, `trigger` and `timestamp`
unchanged — but the `source` and `translation` fields remain mutable (a
late transcription-completed event overwrites `source`, another text-done
overwrites `translation`) — and the task disappears from `active_tasks`
only through the cap-10 eviction: if it is gone after one handled event,
the map held more than 10 tasks and the task had the smallest active id. -/
theorem C6_amended_frame (d : EventData) (now : Nat) (st : EHState)
    (tid : Nat) (t : Task)
    (hb : tid ≤ st.task_counter)
    (h : lookupNat st.active_tasks tid = some t)
    (hc : t.status = "completed") :
    (∀ t', lookupNat (handle_event d now st).1.active_tasks tid = some t' →
      t'.status = "completed" ∧ t'.trigger = t.trigger ∧
      t'.timestamp = t.timestamp) ∧
    (lookupNat (handle_event d now st).1.active_tasks tid = none →
      10 < st.active_tasks.length ∧ minKey st.active_tasks = some tid) := by
  rcases handle_event_lookup d now st tid hb with
    heq | ⟨w, s, hw, heq⟩ | ⟨w, s, hw, heq⟩ | ⟨heq, hlen, hmin⟩
  · constructor
    · intro t' ht'
      rw [heq, h] at ht'
      cases ht'
      exact ⟨hc, rfl, rfl⟩
    · intro hnone
      rw [heq, h] at hnone
      cases hnone
  · rw [h] at hw
    cases hw
    constructor
    · intro t' ht'
      rw [heq] at ht'
      cases ht'
      exact ⟨hc, rfl, rfl⟩
    · intro hnone
      rw [heq] at hnone
      cases hnone
  · rw [h] at hw
    cases hw
    constructor
    · intro t' ht'
      rw [heq] at ht'
      cases ht'
      exact ⟨rfl, rfl, rfl⟩
    · intro hnone
      rw [heq] at hnone
      cases hnone
  · constructor
    · intro t' ht'
      rw [heq] at ht'
      cases ht'
    · intro _
      exact ⟨hlen, hmin⟩

/-- Claim C6, witness for the amended theorem: the completed task 1 of the
concrete scenario keeps status `"completed"`, trigger `"vad"` and
timestamp 0 when the late transcription event is handled. -/
theorem C6_amended_frame_witness :
    (lookupNat sc_afterTrans.active_tasks 1).map
        (fun t => (t.status, t.trigger, t.timestamp)) =
      some ("completed", "vad", 0) := by
  have hmeta := (C6_amended_frame
    { type := some "conversation.item.input_audio_transcription.completed",
      transcript := some "hola" } 2 sc_td.1 1
    { source := none, translation := some "X", status := "completed",
      trigger := "vad", timestamp := 0 }
    (by decide) (by decide) rfl).1
  rcases hlk : lookupNat sc_afterTrans.active_tasks 1 with _ | t'
  · exact absurd hlk (by decide)
  · have := hmeta t' hlk
    simp [this.1, this.2.1, this.2.2]

/-- Claim C7: `create_task` returns the incremented counter, inserts the
new task with status `"created"` under the returned id, sets
`last_task_id` to it, and over any sequence of calls the returned ids are
the consecutive integers starting after the initial counter — hence
strictly increasing and unique. -/
theorem C7_create_task_ids :
    (∀ r now st,
      (create_task r now st).1 = st.task_counter + 1 ∧
      (create_task r now st).2.task_counter = st.task_counter + 1 ∧
      (create_task r now st).2.last_task_id = some (st.task_counter + 1) ∧
      lookupNat ((create_task r now st).2).active_tasks
          (st.task_counter + 1) =
        some { source := none, translation := none, status := "created",
               trigger := r, timestamp := now }) ∧
    (∀ l st, (createRun l st).1 =
        List.range' (st.task_counter + 1) l.length) ∧
    (∀ l st, (createRun l st).1.Pairwise (· < ·)) ∧
    (∀ l st, (createRun l st).1.Nodup) := by
  have hone : ∀ (r : String) (now : Nat) (st : EHState),
      (create_task r now st).1 = st.task_counter + 1 ∧
      (create_task r now st).2.task_counter = st.task_counter + 1 ∧
      (create_task r now st).2.last_task_id = some (st.task_counter + 1) ∧
      lookupNat ((create_task r now st).2).active_tasks
          (st.task_counter + 1) =
        some { source := none, translation := none, status := "created",
               trigger := r, timestamp := now } := by
    intro r now st
    refine ⟨rfl, rfl, rfl, ?_⟩
    simp only [create_task]
    exact lookupNat_setNat _ _ _
  have hids : ∀ (l : List (String × Nat)) (st : EHState),
      (createRun l st).1 = List.range' (st.task_counter + 1) l.length := by
    intro l
    induction l with
    | nil => intro st; rfl
    | cons p rest ih =>
      intro st
      simp only [createRun, List.length_cons, List.range'_succ]
      rw [ih]
      rfl
  have hpair : ∀ (l : List (String × Nat)) (st : EHState),
      (createRun l st).1.Pairwise (· < ·) := by
    intro l st
    rw [hids]
    have : ∀ (n : Nat) (a : Nat), (List.range' a n).Pairwise (· < ·) := by
      intro n
      induction n with
      | zero => intro a; simp
      | succ k ih =>
        intro a
        rw [List.range'_succ]
        refine List.Pairwise.cons ?_ (ih (a + 1))
        intro b hb
        have := List.mem_range'_1.mp hb
        omega
    exact this l.length (st.task_counter + 1)
  exact ⟨hone, hids, hpair, fun l st => (hpair l st).imp Nat.ne_of_lt⟩

/-- The text-done handler never performs more than one bounded wait in a
single invocation. -/
theorem on_text_done_waits_le_one (d : EventData) (st : EHState) :
    (on_text_done d st).2.waits ≤ 1 := by
  simp only [on_text_done]
  repeat' split
  all_goals simp [noOutput]

/-- Claim C8: when a text-done event resolves to an existing task whose
source is still unset (falsy), the handler performs exactly one bounded
wait, finalizes the task to status `"completed"` with the translation
stored, and the reported (source, translation) pair substitutes the
explicit unavailable marker for the missing source; in every case the
handler performs at most one bounded wait, never blocking indefinitely. -/
theorem C8_bounded_wait (d : EventData) (st : EHState) (tid : Nat)
    (task : Task)
    (htext : d.text.getD "" ≠ "")
    (hres : pyDictGetOr st.response_to_task d.response_id st.last_task_id =
      some tid)
    (h0 : tid ≠ 0)
    (hlk : lookupNat st.active_tasks tid = some task)
    (hsrc : strTruthy task.source = false)
    (hsize : st.active_tasks.length ≤ 10) :
    (on_text_done d st).2.waits = 1 ∧
    (on_text_done d st).2.reports =
      [{ task_id := some tid, source := some sourceUnavailable,
         translation := d.text.getD "" }] ∧
    lookupNat (on_text_done d st).1.active_tasks tid =
      some { task with translation := some (d.text.getD ""),
                       status := "completed" } ∧
    (∀ d₂ st₂, (on_text_done d₂ st₂).2.waits ≤ 1) := by
  have hlen : ¬ (10 < (setNat st.active_tasks tid
      { task with translation := some (d.text.getD ""),
                  status := "completed" }).length) := by
    rw [length_setNat_present _ _ _ (by simp [hlk])]
    omega
  have hmarker :
      (match task.source with
       | some s => if s = "" then sourceUnavailable else s
       | none => sourceUnavailable) = sourceUnavailable := by
    rcases hsv : task.source with _ | s
    · rfl
    · rw [hsv] at hsrc
      have hs : s = "" := by simpa [strTruthy] using hsrc
      simp [hs]
  refine ⟨?_, ?_, ?_, on_text_done_waits_le_one⟩
  · simp [on_text_done, htext, hres, hlk, h0, hlen, hsrc]
  · simp [on_text_done, htext, hres, hlk, h0, hlen, hmarker]
  · have hact : (on_text_done d st).1.active_tasks =
        setNat st.active_tasks tid
          { task with translation := some (d.text.getD ""),
                      status := "completed" } := by
      simp [on_text_done, htext, hres, hlk, h0, hlen]
    rw [hact, lookupNat_setNat]

/-- Claim C8, witness: the concrete one-task scenario in which the
translation arrives first performs exactly one bounded wait. -/
theorem C8_bounded_wait_witness :
    (on_text_done { text := some "X" } sc_vad1).2.waits = 1 :=
  (C8_bounded_wait { text := some "X" } sc_vad1 1
    { source := none, translation := none, status := "created",
      trigger := "vad", timestamp := 0 }
    (by decide) (by decide) (by decide) (by decide) (by decide)
    (by decide)).1

/-- Claim C9: a transcription-completed event whose transcript is missing
or empty and a text-done event whose text is missing or empty are handled
as no-ops apart from appending the event type to the received-event log:
every task, both correlation maps, the task counter and `last_task_id`
are unchanged, and no wait or report is produced. -/
theorem C9_empty_payload_noop (st : EHState) (now : Nat)
    (iid rid : Option String) :
    handle_event
        { type := some "conversation.item.input_audio_transcription.completed",
          item_id := iid } now st =
      ({ st with events_received := st.events_received ++
          ["conversation.item.input_audio_transcription.completed"] },
       noOutput) ∧
    handle_event
        { type := some "conversation.item.input_audio_transcription.completed",
          item_id := iid, transcript := some "" } now st =
      ({ st with events_received := st.events_received ++
          ["conversation.item.input_audio_transcription.completed"] },
       noOutput) ∧
    handle_event
        { type := some "response.text.done", response_id := rid } now st =
      ({ st with events_received := st.events_received ++
          ["response.text.done"] }, noOutput) ∧
    handle_event
        { type := some "response.text.done", response_id := rid,
          text := some "" } now st =
      ({ st with events_received := st.events_received ++
          ["response.text.done"] }, noOutput) := by
  refine ⟨?_, ?_, ?_, ?_⟩ <;> rfl

/-- Claim C10: when the client is not connected, `send_message` — and with
it `send_audio`, `configure_session`, `create_response` and
`commit_audio_buffer` — hands nothing to the socket and returns `False`
instead of raising; and `commit_audio_buffer` issues the follow-up
`response.create` request exactly when its own commit message was sent
successfully. -/
theorem C10_disconnected_send (a s : List OutMsg) (w w₂ : Bool)
    (m : OutMsg) (b : String) (st : ClientState) :
    send_message w m ⟨false, a, s⟩ = (false, ⟨false, a, s⟩) ∧
    send_audio w b ⟨false, a, s⟩ = (false, ⟨false, a, s⟩) ∧
    configure_session w ⟨false, a, s⟩ = (false, ⟨false, a, s⟩) ∧
    create_response w ⟨false, a, s⟩ = (false, ⟨false, a, s⟩) ∧
    commit_audio_buffer w w₂ ⟨false, a, s⟩ = (false, ⟨false, a, s⟩) ∧
    ((OutMsg.responseCreate ∈
        ((commit_audio_buffer w w₂ st).2.attempted.drop st.attempted.length)) ↔
      (send_message w OutMsg.bufferCommit st).1 = true) := by
  refine ⟨rfl, rfl, rfl, rfl, rfl, ?_⟩
  rcases st with ⟨conn, att, snt⟩
  cases conn <;> cases w <;> cases w₂ <;>
    simp [commit_audio_buffer, send_message, create_response,
      List.append_assoc, List.drop_left, List.drop_length]

end RT
